import Mathlib

/-!
Shallow embedding of the rapid-rust interpreter (src/lexer.rs, src/parser.rs)
and verification of its specified behaviour.

Modelling conventions:
* Rust `Result<T, String>` errors and `panic!` aborts are both represented in
  the `Except` monad, but kept apart by the `PErr` type: `PErr.err` is a value
  returned to the caller (`Err(...)`), `PErr.panic` is an abrupt process
  abort (`panic!(...)`).
* `f64` is modelled by `ℚ`; all numeric literals exercised here are small
  integers on which double-precision arithmetic is exact.  (Division by zero
  differs: `f64` yields infinity, `ℚ` yields 0; no statement below touches it.)
* Strings are scanned at character level; all inputs considered are ASCII, so
  Rust's byte indices coincide with character indices.
* Rust's `HashMap<String, _>` is represented by an insertion-ordered
  association list with overwrite-on-insert (`vmInsert` / `vmGet`).  Its
  iteration order is unspecified in Rust, so code that iterates a map
  (`test_proc`) takes the iteration order as an explicit parameter; callers
  instantiate it with one admissible order.
* Loops with a mutable cursor become recursive functions over the remaining
  token list; loops whose per-step consumption is data dependent take a fuel
  parameter (fuel exhaustion is modelled as a distinguished panic and is
  unreachable for fuel larger than the input length).
-/

namespace RapidRust

/-- Error channel: `err` models a Rust `Err(String)` result value returned to
the caller, `panic` models `panic!` — abrupt, unannounced process
termination. -/
inductive PErr where
  | err (msg : String)
  | panic (msg : String)
deriving DecidableEq

abbrev Res (α : Type) := Except PErr α

deriving instance DecidableEq for Except

/-- Token type, from `lexer.rs` (`enum TokenType`). -/
inductive TokenType where
  | LeftPar | RightPar | LeftBrace | RightBrace | LeftBrack | RightBrack
  | Semicolon | Comma | Whitespace | Newline
  | Add | Minus | Multiply | Divide
  | Assign
  | Equal | NotEqual
  | Less | LessEqual
  | Greater | GreaterEqual
  | Id (s : String) | NumValue (s : String) | StringValue (s : String) | True | False
  | Mod | EndMod
  | Proc | EndProc
  | Func | EndFunc
  | Local | Var | Pers | Inout
  | If | Then | ElseIf | EndIf
  | While | EndWhile
  | For | EndFor
  | Return
  | NumType | StringType | BoolType
  | TpWrite
deriving DecidableEq

/-- Rendering used by the Rust format strings (`{:?}` on a token); only the
shapes that occur in error messages need to be faithful. -/
def TokenType.debug : TokenType → String
  | .LeftPar => "LeftPar" | .RightPar => "RightPar"
  | .LeftBrace => "LeftBrace" | .RightBrace => "RightBrace"
  | .LeftBrack => "LeftBrack" | .RightBrack => "RightBrack"
  | .Semicolon => "Semicolon" | .Comma => "Comma"
  | .Whitespace => "Whitespace" | .Newline => "Newline"
  | .Add => "Add" | .Minus => "Minus" | .Multiply => "Multiply" | .Divide => "Divide"
  | .Assign => "Assign"
  | .Equal => "Equal" | .NotEqual => "NotEqual"
  | .Less => "Less" | .LessEqual => "LessEqual"
  | .Greater => "Greater" | .GreaterEqual => "GreaterEqual"
  | .Id s => "Id(\"" ++ s ++ "\")"
  | .NumValue s => "NumValue(\"" ++ s ++ "\")"
  | .StringValue s => "StringValue(\"" ++ s ++ "\")"
  | .True => "True" | .False => "False"
  | .Mod => "Mod" | .EndMod => "EndMod"
  | .Proc => "Proc" | .EndProc => "EndProc"
  | .Func => "Func" | .EndFunc => "EndFunc"
  | .Local => "Local" | .Var => "Var" | .Pers => "Pers" | .Inout => "Inout"
  | .If => "If" | .Then => "Then" | .ElseIf => "ElseIf" | .EndIf => "EndIf"
  | .While => "While" | .EndWhile => "EndWhile"
  | .For => "For" | .EndFor => "EndFor"
  | .Return => "Return"
  | .NumType => "NumType" | .StringType => "StringType" | .BoolType => "BoolType"
  | .TpWrite => "TpWrite"

/-- The fixed spelling table, in source order (`DEFAULT_TOKENS`). -/
def DEFAULT_TOKENS : List (String × TokenType) :=
  [(";", .Semicolon),
   (",", .Comma),
   ("\n", .Newline),
   (" ", .Whitespace),
   ("\t", .Whitespace),
   ("(", .LeftPar),
   (")", .RightPar),
   ("\x7b", .LeftBrace),
   ("\x7d", .RightBrace),
   ("[", .LeftBrack),
   ("]", .RightBrack),
   ("+", .Add),
   ("-", .Minus),
   ("*", .Multiply),
   ("/", .Divide),
   ("=", .Equal),
   ("<>", .NotEqual),
   ("<=", .LessEqual),
   ("<", .Less),
   (">=", .GreaterEqual),
   (">", .Greater),
   (":=", .Assign),
   ("MOD", .Mod),
   ("ENDMOD", .EndMod),
   ("PROC", .Proc),
   ("ENDPROC", .EndProc),
   ("FUNC", .Func),
   ("ENDFUNC", .EndFunc),
   ("LOCAL", .Local),
   ("VAR", .Var),
   ("PERS", .Pers),
   ("INOUT", .Inout),
   ("IF", .If),
   ("THEN", .Then),
   ("ELSEIF", .ElseIf),
   ("ENDIF", .EndIf),
   ("WHILE", .While),
   ("ENDWHILE", .EndWhile),
   ("FOR", .For),
   ("ENDFOR", .EndFor),
   ("RETURN", .Return),
   ("TPWRITE", .TpWrite),
   ("TRUE", .True),
   ("FALSE", .False),
   ("num", .NumType),
   ("string", .StringType),
   ("bool", .BoolType)]

/-- ASCII lower-casing, as used by `eq_ignore_ascii_case`. -/
def asciiLower (c : Char) : Char :=
  if 'A' ≤ c ∧ c ≤ 'Z' then Char.ofNat (c.toNat + 32) else c

/-- Case-insensitive ASCII comparison of two character runs
(`str::eq_ignore_ascii_case`). -/
def eqIgnoreCase (a b : List Char) : Bool :=
  a.map asciiLower == b.map asciiLower

/-- Scan the spelling table in order and return the first entry whose
spelling is a case-insensitive prefix of the input, with its length
(the `for token in DEFAULT_TOKENS` loop in `lexer::parse`). -/
def matchTok : List (String × TokenType) → List Char → Option (TokenType × Nat)
  | [], _ => none
  | (sp, tk) :: table, cs =>
    let spl := sp.toList
    if spl.length ≤ cs.length ∧ eqIgnoreCase (cs.take spl.length) spl then
      some (tk, spl.length)
    else matchTok table cs

/-- One pass of `lexer::parse`.  `fuel` strictly exceeds the number of steps
needed (every step consumes at least one character); the fuel-exhaustion
branch is unreachable for `fuel > cs.length`.

Faithful quirks of the source:
* a string literal takes `slice[1..idx2]` where `idx2` is the index of the
  closing quote *relative to* `slice[1..]`, dropping the literal's final
  character, and advances by `idx2 + 1`, which lands on the closing quote;
  when `idx2 = 0` (empty literal) `slice[1..0]` is an invalid Rust range and
  panics;
* a digit run or identifier that reaches the end of input panics
  (`Expected terminator`);
* any other unmatched character panics (`Undefined symbol`). -/
def lexGo : Nat → List Char → List TokenType → Res (List TokenType)
  | 0, _, _ => .error (.panic "out of fuel")
  | _ + 1, [], acc => .ok acc
  | fuel + 1, c :: cs', acc =>
    let cs := c :: cs'
    match matchTok DEFAULT_TOKENS cs with
    | some (tk, l) =>
      (match tk with
       | .Whitespace | .Newline => lexGo fuel (cs.drop l) acc
       | _ => lexGo fuel (cs.drop l) (acc ++ [tk]))
    | none =>
      if c = '\"' then
        match (cs.drop 1).findIdx? (fun ch => ch == '\"') with
        | some idx2 =>
          if idx2 = 0 then
            .error (.panic "slice index starts at 1 but ends at 0")
          else
            lexGo fuel (cs.drop (idx2 + 1))
              (acc ++ [.StringValue (String.mk ((cs.drop 1).take (idx2 - 1)))])
        | none => .error (.panic ("Expected \" at " ++ String.mk cs))
      else if c.isDigit then
        match cs.findIdx? (fun ch => !ch.isDigit && ch != '.') with
        | some idx2 => lexGo fuel (cs.drop idx2) (acc ++ [.NumValue (String.mk (cs.take idx2))])
        | none => .error (.panic ("Expected terminator at " ++ String.mk cs))
      else if c.isAlpha then
        match cs.findIdx? (fun ch => !ch.isAlphanum && ch != '_') with
        | some idx2 => lexGo fuel (cs.drop idx2) (acc ++ [.Id (String.mk (cs.take idx2))])
        | none => .error (.panic ("Expected terminator at " ++ String.mk cs))
      else .error (.panic ("Undefined symbol " ++ String.mk cs))

/-- `lexer::parse`: tokenize a source string. -/
def lexParse (s : String) : Res (List TokenType) :=
  lexGo (s.toList.length + 1) s.toList []

/-! ## Runtime values (`parser.rs`, `enum Variable` and its `ops` impls) -/

/-- Runtime value.  `Num` carries ℚ in place of `f64` (see header). -/
inductive Variable where
  | Void
  | Bool (b : Bool)
  | Num (q : ℚ)
  | Str (s : String)
deriving DecidableEq

/-- The tag of a value (which union variant it is). -/
def Variable.tag : Variable → Nat
  | .Void => 0
  | .Bool _ => 1
  | .Num _ => 2
  | .Str _ => 3

/-- `Variable::set`: overwrite a value in place; mismatched tags panic
(`panic!("")`).  Returns the updated value. -/
def Variable.set : Variable → Variable → Res Variable
  | .Bool _, .Bool b2 => .ok (.Bool b2)
  | .Num _, .Num n2 => .ok (.Num n2)
  | .Str _, .Str s2 => .ok (.Str s2)
  | _, _ => .error (.panic "")

/-- `Variable::from`: default value for a declared type. -/
def Variable.fromType : TokenType → Res Variable
  | .NumType => .ok (.Num 0)
  | .BoolType => .ok (.Bool false)
  | .StringType => .ok (.Str "")
  | _ => .error (.err "Unknown data type")

/-- Decimal value of a digit character. -/
def digitVal (c : Char) : ℕ := c.toNat - 48

/-- Value of a digit run. -/
def digitsToNat (cs : List Char) : ℕ := cs.foldl (fun acc c => 10 * acc + digitVal c) 0

/-- `str::parse::<f64>` restricted to the decimal shapes the tokenizer can
produce (digits, optionally a point and more digits); a second point (for
example `1.2.3`) fails, as Rust's parse does. -/
def parseNumQ (cs : List Char) : Option ℚ :=
  let intPart := cs.takeWhile Char.isDigit
  let rest := cs.dropWhile Char.isDigit
  if intPart.isEmpty then none
  else
    match rest with
    | [] => some (digitsToNat intPart : ℚ)
    | '.' :: frac =>
      if frac.all Char.isDigit then
        some ((digitsToNat intPart : ℚ) + (digitsToNat frac : ℚ) / ((10 : ℚ) ^ frac.length))
      else none
    | _ => none

/-- `Variable::from_value`: value for a declared type with an initializer
literal.  The numeric case calls `parse().unwrap()`: an unparsable literal is
a panic, not an `Err`. -/
def Variable.fromValue : TokenType → TokenType → Res Variable
  | .BoolType, .True => .ok (.Bool true)
  | .BoolType, .False => .ok (.Bool false)
  | .NumType, .NumValue val =>
    (match parseNumQ val.toList with
     | some q => .ok (.Num q)
     | none => .error (.panic "called Result::unwrap on an Err value"))
  | .StringType, .StringValue val => .ok (.Str val)
  | _, _ => .error (.err "Unknown data type")

/-- `impl ops::Add for Variable`: Bool+Bool is logical OR, Num+Num numeric
addition, Str+Str concatenation; every other combination panics
(`Unknown combo`). -/
def Variable.add : Variable → Variable → Res Variable
  | .Bool b1, .Bool b2 => .ok (.Bool (b1 || b2))
  | .Num n1, .Num n2 => .ok (.Num (n1 + n2))
  | .Str s1, .Str s2 => .ok (.Str (s1 ++ s2))
  | _, _ => .error (.panic "Unknown combo")

/-- `impl ops::Sub for Variable`: only Num−Num is defined. -/
def Variable.sub : Variable → Variable → Res Variable
  | .Num n1, .Num n2 => .ok (.Num (n1 - n2))
  | _, _ => .error (.panic "Unknown combo")

/-- `impl ops::Mul for Variable`: only Num·Num is defined. -/
def Variable.mul : Variable → Variable → Res Variable
  | .Num n1, .Num n2 => .ok (.Num (n1 * n2))
  | _, _ => .error (.panic "Unknown combo")

/-- `impl ops::Div for Variable`: only Num/Num is defined. -/
def Variable.div : Variable → Variable → Res Variable
  | .Num n1, .Num n2 => .ok (.Num (n1 / n2))
  | _, _ => .error (.panic "Unknown combo")

/-! ## AST (`enum Node`) and the stack -/

/-- AST node.  `ProcCall` carries the fields of the `Routine` it boxes,
inlined so that `Node` stays a plain nested inductive; the parser never
constructs it and `eval` panics on it, exactly as in the source. -/
inductive Node where
  | Assign (lhs rhs : Node)
  | OpAdd (lhs rhs : Node)
  | OpSub (lhs rhs : Node)
  | OpMul (lhs rhs : Node)
  | OpDiv (lhs rhs : Node)
  | Print (idx : Nat)
  | Value (v : Variable)
  | Var (idx : Nat)
  | ProcCall (name : String) (arguments : List Variable)
      (vars : List (String × Nat × Variable)) (nodes : List Node)
  | FuncCall

/-- `struct Stack`: one activation record — a base offset into a flat value
array. -/
structure Stack where
  offset : Nat
  vars : List Variable  -- `variables` in the source; renamed (Lean keyword)
deriving DecidableEq

/-- `Node::assign`: only a `Var` node is a legal target; an out-of-range slot
is silently ignored (`if let Some = get_mut` with no else); a tag mismatch
panics inside `Variable::set`. -/
def Node.assign (n : Node) (s : Stack) (other : Variable) : Res (Variable × Stack) :=
  match n with
  | .Var idx =>
    (match s.vars.get? (s.offset + idx) with
     | some cur =>
       (match cur.set other with
        | .ok newV => .ok (.Void, { s with vars := s.vars.set (s.offset + idx) newV })
        | .error e => .error e)
     | none => .ok (.Void, s))
  | _ => .error (.panic "Can only assign to variable")

/-- `Node::eval`: bottom-up evaluation against the stack.  Binary operators
evaluate left then right; `Var`/`Print` on an out-of-range slot panic
(`panic!("")`); `ProcCall`/`FuncCall` hit the catch-all panic.  The
diagnostic `println!` of `Print` is an external effect and is not part of the
returned state. -/
def Node.eval : Node → Stack → Res (Variable × Stack)
  | .Assign lhs rhs, s =>
    (match rhs.eval s with
     | .error e => .error e
     | .ok (vr, s1) => lhs.assign s1 vr)
  | .OpAdd lhs rhs, s =>
    (match lhs.eval s with
     | .error e => .error e
     | .ok (v1, s1) =>
       match rhs.eval s1 with
       | .error e => .error e
       | .ok (v2, s2) =>
         match v1.add v2 with
         | .ok v => .ok (v, s2)
         | .error e => .error e)
  | .OpSub lhs rhs, s =>
    (match lhs.eval s with
     | .error e => .error e
     | .ok (v1, s1) =>
       match rhs.eval s1 with
       | .error e => .error e
       | .ok (v2, s2) =>
         match v1.sub v2 with
         | .ok v => .ok (v, s2)
         | .error e => .error e)
  | .OpMul lhs rhs, s =>
    (match lhs.eval s with
     | .error e => .error e
     | .ok (v1, s1) =>
       match rhs.eval s1 with
       | .error e => .error e
       | .ok (v2, s2) =>
         match v1.mul v2 with
         | .ok v => .ok (v, s2)
         | .error e => .error e)
  | .OpDiv lhs rhs, s =>
    (match lhs.eval s with
     | .error e => .error e
     | .ok (v1, s1) =>
       match rhs.eval s1 with
       | .error e => .error e
       | .ok (v2, s2) =>
         match v1.div v2 with
         | .ok v => .ok (v, s2)
         | .error e => .error e)
  | .Value v, s => .ok (v, s)
  | .Var idx, s =>
    (match s.vars.get? (s.offset + idx) with
     | some v => .ok (v, s)
     | none => .error (.panic ""))
  | .Print idx, s =>
    (match s.vars.get? (s.offset + idx) with
     | some _ => .ok (.Void, s)
     | none => .error (.panic ""))
  | .ProcCall _ _ _ _, _ => .error (.panic "")
  | .FuncCall, _ => .error (.panic "")

/-! ## Name → (slot, value) map

`HashMap<String, (usize, Variable)>` as an insertion-ordered association
list; `vmInsert` overwrites the entry for an existing key in place, as
`HashMap::insert` does.  Iteration order of the Rust map is unspecified —
code that iterates it takes the order as a parameter. -/

abbrev VarMap := List (String × Nat × Variable)

/-- `HashMap::get`. -/
def vmGet (m : VarMap) (name : String) : Option (Nat × Variable) :=
  match m.find? (fun e => e.1 == name) with
  | some e => some e.2
  | none => none

/-- `HashMap::insert` (overwrite for an existing key). -/
def vmInsert (m : VarMap) (name : String) (p : Nat × Variable) : VarMap :=
  if m.any (fun e => e.1 == name) then
    m.map (fun e => if e.1 == name then (name, p) else e)
  else m ++ [(name, p)]

/-! ## Program structure (`Routine`, `Module`, `Program`, `Stack`) -/

/-- `struct Routine`.  The source field `variables` is called `vars` here
(Lean keyword). -/
structure Routine where
  name : String
  arguments : List Variable
  vars : VarMap
  nodes : List Node

/-- `Routine::new`. -/
def Routine.new (name : String) : Routine :=
  { name := name, arguments := [], vars := [], nodes := [] }

/-- `struct Module` (field `variables` renamed `vars`). -/
structure Module where
  name : String
  routines : List Routine
  vars : List Variable

/-- `Module::new`. -/
def Module.new (name : String) : Module :=
  { name := name, routines := [], vars := [] }

/-- `struct Program` (field `variables` renamed `vars`). -/
structure Program where
  modules : List Module
  vars : List Variable

/-- `Program::new`. -/
def Program.new : Program := { modules := [], vars := [] }

/-! ## Parser (`parser.rs`)

Each function takes the remaining token list and returns its result together
with the tokens left after the cursor. -/

/-- Shared literal/identifier → operand-node step, duplicated verbatim in the
source between `parse_statement` and `parse_sub`: numeric literals go through
`parse().unwrap()` (panic on failure), an identifier must already be in the
variable map (`Unknown id` otherwise), any other token is invalid. -/
def mkOperand (vars : VarMap) : TokenType → Res Node
  | .NumValue val =>
    (match parseNumQ val.toList with
     | some q => .ok (.Value (.Num q))
     | none => .error (.panic "called Result::unwrap on an Err value"))
  | .StringValue val => .ok (.Value (.Str val))
  | .True => .ok (.Value (.Bool true))
  | .False => .ok (.Value (.Bool false))
  | .Id name =>
    (match vmGet vars name with
     | some p => .ok (.Var p.1)
     | none => .error (.err "Unknown id"))
  | t => .error (.err ("Invalid token for statement: " ++ t.debug))

/-- `parse_sub`: the expression-continuation loop.  A semicolon terminates
and returns the current node; `*`/`/` combine immediately (left-deep) and
continue; `+`/`-` recurse on the whole remainder first and wrap it as their
right operand (hence the right association of additive chains).  The
operator-validity check happens only after the right operand token has been
consumed and validated, as in the source. -/
def parse_sub (vars : VarMap) (lhs : Node) : List TokenType → Res (Node × List TokenType)
  | [] => .error (.err "Expected operator")
  | .Semicolon :: rest => .ok (lhs, rest)
  | [_] => .error (.err "Unexpected token")
  | opTok :: rhsTok :: rest =>
    (match mkOperand vars rhsTok with
     | .error e => .error e
     | .ok rhsNode =>
       match opTok with
       | .Add =>
         (match parse_sub vars rhsNode rest with
          | .error e => .error e
          | .ok (r, rem) => .ok (.OpAdd lhs r, rem))
       | .Minus =>
         (match parse_sub vars rhsNode rest with
          | .error e => .error e
          | .ok (r, rem) => .ok (.OpSub lhs r, rem))
       | .Multiply => parse_sub vars (.OpMul lhs rhsNode) rest
       | .Divide => parse_sub vars (.OpDiv lhs rhsNode) rest
       | _ => .error (.err ("Invalid token for statement: " ++ opTok.debug)))

/-- `parse_statement`: an `:=` then one operand token then the `parse_sub`
continuation; produces the `Assign` node. -/
def parse_statement (vars : VarMap) (lhsNode : Node) :
    List TokenType → Res (Node × List TokenType)
  | .Assign :: rest =>
    (match rest with
     | [] => .error (.err "Unexpected token")
     | tok :: rest2 =>
       match mkOperand vars tok with
       | .error e => .error e
       | .ok rhs0 =>
         match parse_sub vars rhs0 rest2 with
         | .error e => .error e
         | .ok (rhsNode, rem) => .ok (.Assign lhsNode rhsNode, rem))
  | _ => .error (.err "Expected variable assignment")

/-- `parse_arg`: a parameter name after its type keyword. -/
def parse_arg (dataType : TokenType) :
    List TokenType → Res ((String × Variable) × List TokenType)
  | .Id name :: rest =>
    (match Variable.fromType dataType with
     | .ok v => .ok ((name, v), rest)
     | .error e => .error e)
  | _ => .error (.err "Expected var name")

/-- `parse_var`: `type name [:= value] ;`. -/
def parse_var : List TokenType → Res ((String × Variable) × List TokenType)
  | [] => .error (.err "Expected data type")
  | dataType :: rest =>
    match rest with
    | .Id name :: rest2 =>
      (match rest2 with
       | .Assign :: rest3 =>
         (match rest3 with
          | [] => .error (.err "Expected value")
          | value :: rest4 =>
            match rest4 with
            | .Semicolon :: rest5 =>
              (match Variable.fromValue dataType value with
               | .ok v => .ok ((name, v), rest5)
               | .error e => .error e)
            | _ => .error (.err "Expected value"))
       | .Semicolon :: rest3 =>
         (match Variable.fromType dataType with
          | .ok v => .ok ((name, v), rest3)
          | .error e => .error e)
       | _ => .error (.err "Expected assign or semicolon"))
    | _ => .error (.err "Expected var name")

/-- The argument loop of `read_proc`: type-keyword tokens declare parameters
with slot indices counted by `idx`; `)` closes the list.  If the stream runs
out the loop simply exits (control then falls through to the body loop). -/
def readArgs : Nat → List TokenType → Nat → VarMap → Res (Nat × VarMap × List TokenType)
  | 0, _, _, _ => .error (.panic "out of fuel")
  | _ + 1, [], idx, vars => .ok (idx, vars, [])
  | fuel + 1, t :: rest, idx, vars =>
    match t with
    | .RightPar => .ok (idx, vars, rest)
    | .NumType | .StringType | .BoolType =>
      (match parse_arg t rest with
       | .error e => .error e
       | .ok ((name, v), rest2) => readArgs fuel rest2 (idx + 1) (vmInsert vars name (idx, v)))
    | _ => .error (.err ("Expected ')' " ++ t.debug))

/-- The node list produced by one `TPWRITE` step: a `Print` node when the
next token is an identifier present in the map; silently unchanged
otherwise. -/
def tpWriteNodes (m : VarMap) (rest : List TokenType) (ns : List Node) : List Node :=
  match rest.head? with
  | some (.Id name) =>
    (match vmGet m name with
     | some p => ns ++ [.Print p.1]
     | none => ns)
  | _ => ns

/-- The body loop of `read_proc`, with the loop state (slot counter, variable
map, statement nodes) made explicit; `ENDPROC` returns the state.  Faithful
quirks: a `VAR` declaration allocates the next slot; an identifier that is
not in the map is silently skipped (the `if let` has no else); `IF`, `WHILE`,
`FOR`, `RETURN` are consumed and ignored; `TPWRITE` consumes two tokens and
pushes a `Print` node only when its operand is a known identifier. -/
def readBodyLoop : Nat → List TokenType → Nat → VarMap → List Node →
    Res (Nat × VarMap × List Node × List TokenType)
  | 0, _, _, _, _ => .error (.panic "out of fuel")
  | _ + 1, [], _, _, _ => .error (.err "Unexpected end of routine")
  | fuel + 1, t :: rest, idx, vars, ns =>
    match t with
    | .Var =>
      (match parse_var rest with
       | .error e => .error e
       | .ok ((name, v), rest2) =>
         readBodyLoop fuel rest2 (idx + 1) (vmInsert vars name (idx, v)) ns)
    | .Id name =>
      (match vmGet vars name with
       | some p =>
         (match parse_statement vars (.Var p.1) rest with
          | .error e => .error e
          | .ok (node, rest2) => readBodyLoop fuel rest2 idx vars (ns ++ [node]))
       | none => readBodyLoop fuel rest idx vars ns)
    | .If | .While | .For | .Return => readBodyLoop fuel rest idx vars ns
    | .TpWrite => readBodyLoop fuel rest.tail.tail idx vars (tpWriteNodes vars rest ns)
    | .EndProc => .ok (idx, vars, ns, rest)
    | _ => .error (.err ("Invalid token for routine: " ++ t.debug))

/-- `read_proc`: routine name, `(`, the argument loop, then the body loop;
the final variable map and nodes populate the returned `Routine` (the final
slot counter is dropped, as in the source). -/
def read_proc (fuel : Nat) : List TokenType → Res (Routine × List TokenType)
  | .Id name :: rest =>
    (match rest with
     | .LeftPar :: rest2 =>
       (match readArgs fuel rest2 0 [] with
        | .error e => .error e
        | .ok (idx1, vars1, rest3) =>
          match readBodyLoop fuel rest3 idx1 vars1 [] with
          | .error e => .error e
          | .ok (_, vars2, ns, rest4) =>
            .ok ({ name := name, arguments := [], vars := vars2, nodes := ns }, rest4))
     | _ => .error (.err "Expected '('"))
  | _ => .error (.err "Expected routine name")

/-- The stack frame `test_proc` builds: one value pushed per map entry, in
the given iteration order, the slot index of the entry being ignored. -/
def buildStack (iterOrder : VarMap) : Stack :=
  { offset := 0, vars := iterOrder.map (fun e => e.2.2) }

/-- Run a routine's statement nodes in order against a stack. -/
def runNodes : List Node → Stack → Res Stack
  | [], s => .ok s
  | n :: rest, s =>
    (match n.eval s with
     | .error e => .error e
     | .ok (_, s2) => runNodes rest s2)

/-- `test_proc`: build a fresh frame from the routine's variable map —
iterated in `iterOrder`, an arbitrary `HashMap` iteration order — and
evaluate every statement node. -/
def test_proc (iterOrder : VarMap) (r : Routine) : Res Stack :=
  runNodes r.nodes (buildStack iterOrder)

/-- The module-body loop of `read_mod`: a parsed `PROC` is printed, executed
by `test_proc` and *dropped* — never pushed into `module.routines`;
`FUNC`/`VAR`/`PERS`/`LOCAL` are consumed and ignored; `ENDMOD` returns the
module unchanged.  The `HashMap` iteration order for `test_proc` is
instantiated with the insertion order (one admissible order). -/
def readModLoop : Nat → List TokenType → Module → Res (Module × List TokenType)
  | 0, _, _ => .error (.panic "out of fuel")
  | _ + 1, [], _ => .error (.err "Unexpected end of module")
  | fuel + 1, t :: rest, mdl =>
    match t with
    | .Proc =>
      (match read_proc fuel rest with
       | .error e => .error e
       | .ok (r, rest2) =>
         match test_proc r.vars r with
         | .error e => .error e
         | .ok _ => readModLoop fuel rest2 mdl)
    | .Func | .Var | .Pers | .Local => readModLoop fuel rest mdl
    | .EndMod => .ok (mdl, rest)
    | _ => .error (.err ("Invalid token for module: " ++ t.debug))

/-- `read_mod`: module name then the module-body loop. -/
def read_mod (fuel : Nat) : List TokenType → Res (Module × List TokenType)
  | .Id name :: rest => readModLoop fuel rest (Module.new name)
  | _ => .error (.err "Expected module name")

/-- The program loop of `parse_tokens`: `MOD` opens a module, which is pushed
in declaration order; anything else is invalid.  (The source also
concatenates two demo string values and prints them — a pure diagnostic with
no effect on the result.) -/
def parseTokensLoop : Nat → List TokenType → Program → Res Program
  | 0, _, _ => .error (.panic "out of fuel")
  | _ + 1, [], p => .ok p
  | fuel + 1, t :: rest, p =>
    match t with
    | .Mod =>
      (match read_mod fuel rest with
       | .error e => .error e
       | .ok (m, rest2) => parseTokensLoop fuel rest2 { p with modules := p.modules ++ [m] })
    | _ => .error (.err ("Invalid token for program: " ++ t.debug))

/-- `parse_tokens`. -/
def parse_tokens (fuel : Nat) (tokens : List TokenType) : Res Program :=
  parseTokensLoop fuel tokens Program.new

/-! ## Concrete inputs used by the statements below -/

/-- The token sequence of the driver program in `main.rs`
(`MOD Testmodule PROC rTest() VAR num nTest1:=0;
nTest1:= 2 + 2 * 3 *4 + 1; TpWrite nTest1; ENDPROC ENDMOD`). -/
def mainTokens : List TokenType :=
  [.Mod, .Id "Testmodule",
   .Proc, .Id "rTest", .LeftPar, .RightPar,
   .Var, .NumType, .Id "nTest1", .Assign, .NumValue "0", .Semicolon,
   .Id "nTest1", .Assign, .NumValue "2", .Add, .NumValue "2", .Multiply, .NumValue "3",
     .Multiply, .NumValue "4", .Add, .NumValue "1", .Semicolon,
   .TpWrite, .Id "nTest1", .Semicolon,
   .EndProc, .EndMod]

/-- The continuation tokens of `2 + 2 * 3 * 4 + 1;` after its first
operand. -/
def c4Tokens : List TokenType :=
  [.Add, .NumValue "2", .Multiply, .NumValue "3", .Multiply, .NumValue "4",
   .Add, .NumValue "1", .Semicolon]

/-- The tree `parse_sub` builds for `2 + 2 * 3 * 4 + 1`: the multiplicative
run is a left-deep chain `(2*3)*4`, bound into the right operand of the first
addition. -/
def c4Tree : Node :=
  .OpAdd (.Value (.Num 2))
    (.OpAdd (.OpMul (.OpMul (.Value (.Num 2)) (.Value (.Num 3))) (.Value (.Num 4)))
      (.Value (.Num 1)))

/-- Variable map for `a = 10, b = 3, c = 2` (slots 0, 1, 2). -/
def c5Map : VarMap := [("a", 0, .Num 10), ("b", 1, .Num 3), ("c", 2, .Num 2)]

/-- Stack frame holding `a = 10, b = 3, c = 2`. -/
def c5Stack : Stack := { offset := 0, vars := [.Num 10, .Num 3, .Num 2] }

/-- The tree `parse_sub` builds for `a - b + c`: right-associated
`a - (b + c)`. -/
def c5Tree : Node := .OpSub (.Var 0) (.OpAdd (.Var 1) (.Var 2))

/-- A routine variable map with two slots whose declared initial values
differ: slot 0 holds 1, slot 1 holds 2 (for example from
`VAR num a := 1; VAR num b := 2;`). -/
def c1Entries : VarMap := [("a", 0, .Num 1), ("b", 1, .Num 2)]

/-- The same entries in the opposite iteration order — a legal iteration
order for a Rust `HashMap`, which guarantees none. -/
def c1Iter : VarMap := [("b", 1, .Num 2), ("a", 0, .Num 1)]

/-- Sequential slot assignment: insert the given declarations into a map,
numbering them `idx, idx+1, …` in list order.  The parser's argument and
body loops are proved below to build their maps in exactly this shape. -/
def insertSeq (m : VarMap) (idx : Nat) : List (String × Variable) → VarMap
  | [] => m
  | (name, v) :: ds => insertSeq (vmInsert m name (idx, v)) (idx + 1) ds


/-! ## Structural lemmas about the parser loops -/

/-- Splitting a sequential slot-assignment run. -/
theorem insertSeq_append (ds1 ds2 : List (String × Variable)) :
    ∀ (m : VarMap) (i : Nat),
    insertSeq m i (ds1 ++ ds2) = insertSeq (insertSeq m i ds1) (i + ds1.length) ds2 := by
  induction ds1 with
  | nil => intro m i; simp [insertSeq]
  | cons d ds ih =>
    intro m i
    obtain ⟨name, v⟩ := d
    simp only [List.cons_append, insertSeq, List.length_cons, List.append_eq]
    rw [ih]
    congr 1
    omega

/-- Whatever the argument loop accepts, its final map is its initial map with
some declaration run inserted at consecutive slots starting at the initial
counter, and the counter advances by exactly the number of declarations. -/
theorem readArgs_insertSeq :
    ∀ (fuel : Nat) (ts : List TokenType) (i : Nat) (m : VarMap)
      (i' : Nat) (m' : VarMap) (rest : List TokenType),
    readArgs fuel ts i m = .ok (i', m', rest) →
    ∃ ds : List (String × Variable), i' = i + ds.length ∧ m' = insertSeq m i ds := by
  intro fuel
  induction fuel with
  | zero => intro ts i m i' m' rest h; simp [readArgs] at h
  | succ fuel ih =>
    intro ts i m i' m' rest h
    cases ts with
    | nil =>
      simp only [readArgs, Except.ok.injEq, Prod.mk.injEq] at h
      obtain ⟨h1, h2, -⟩ := h
      exact ⟨[], by simp [← h1], by simp [insertSeq, ← h2]⟩
    | cons t rest0 =>
      simp only [readArgs] at h
      split at h
      · simp only [Except.ok.injEq, Prod.mk.injEq] at h
        obtain ⟨h1, h2, -⟩ := h
        exact ⟨[], by simp [← h1], by simp [insertSeq, ← h2]⟩
      all_goals first
        | simp at h
        | (split at h
           · simp at h
           · rename_i name v rest2 heq
             obtain ⟨ds, hd1, hd2⟩ := ih _ _ _ _ _ _ h
             refine ⟨(name, v) :: ds, ?_, hd2⟩
             simp only [List.length_cons]
             omega)

/-- Same shape for the body loop: only `VAR` declarations touch the map and
the slot counter, and they do so sequentially. -/
theorem readBodyLoop_insertSeq :
    ∀ (fuel : Nat) (ts : List TokenType) (i : Nat) (m : VarMap) (ns : List Node)
      (i' : Nat) (m' : VarMap) (ns' : List Node) (rest : List TokenType),
    readBodyLoop fuel ts i m ns = .ok (i', m', ns', rest) →
    ∃ ds : List (String × Variable), i' = i + ds.length ∧ m' = insertSeq m i ds := by
  intro fuel
  induction fuel with
  | zero => intro ts i m ns i' m' ns' rest h; simp [readBodyLoop] at h
  | succ fuel ih =>
    intro ts i m ns i' m' ns' rest h
    cases ts with
    | nil => simp [readBodyLoop] at h
    | cons t rest0 =>
      simp only [readBodyLoop] at h
      split at h
      · -- VAR declaration
        split at h
        · simp at h
        · rename_i name v rest2 heq
          obtain ⟨ds, hd1, hd2⟩ := ih _ _ _ _ _ _ _ _ h
          refine ⟨(name, v) :: ds, ?_, hd2⟩
          simp only [List.length_cons]
          omega
      · -- identifier at statement head
        split at h
        · split at h
          · simp at h
          · exact ih _ _ _ _ _ _ _ _ h
        · exact ih _ _ _ _ _ _ _ _ h
      all_goals first
        | exact ih _ _ _ _ _ _ _ _ h
        | (simp only [Except.ok.injEq, Prod.mk.injEq] at h
           obtain ⟨h1, h2, -⟩ := h
           exact ⟨[], by simp [← h1], by simp [insertSeq, ← h2]⟩)
        | simp at h

/-- The module loop never modifies the module it threads through (in
particular it never pushes a parsed routine into it). -/
theorem readModLoop_module_unchanged :
    ∀ (fuel : Nat) (ts : List TokenType) (mdl m' : Module) (rest : List TokenType),
    readModLoop fuel ts mdl = .ok (m', rest) → m' = mdl := by
  intro fuel
  induction fuel with
  | zero => intro ts mdl m' rest h; simp [readModLoop] at h
  | succ fuel ih =>
    intro ts mdl m' rest h
    cases ts with
    | nil => simp [readModLoop] at h
    | cons t rest0 =>
      simp only [readModLoop] at h
      split at h
      · -- PROC: parsed, executed, dropped
        split at h
        · simp at h
        · split at h
          · simp at h
          · exact ih _ _ _ _ h
      all_goals first
        | exact ih _ _ _ _ h
        | (simp only [Except.ok.injEq, Prod.mk.injEq] at h
           exact h.1.symm)
        | simp at h

/-- A successfully parsed module owns no routines at all. -/
theorem read_mod_no_routines (fuel : Nat) (ts : List TokenType) (m : Module)
    (rest : List TokenType) (h : read_mod fuel ts = .ok (m, rest)) :
    m.routines = [] := by
  rw [read_mod.eq_def] at h
  split at h
  · have := readModLoop_module_unchanged _ _ _ _ _ h
    simp [this, Module.new]
  · simp at h

/-- Every module of a successfully parsed program has an empty routine
collection. -/
theorem parseTokensLoop_no_routines :
    ∀ (fuel : Nat) (ts : List TokenType) (p0 p : Program),
    parseTokensLoop fuel ts p0 = .ok p →
    (∀ mdl, mdl ∈ p0.modules → mdl.routines = []) →
    ∀ mdl, mdl ∈ p.modules → mdl.routines = [] := by
  intro fuel
  induction fuel with
  | zero => intro ts p0 p h; simp [parseTokensLoop] at h
  | succ fuel ih =>
    intro ts p0 p h h0
    cases ts with
    | nil =>
      simp only [parseTokensLoop, Except.ok.injEq] at h
      exact h ▸ h0
    | cons t rest0 =>
      simp only [parseTokensLoop] at h
      split at h
      · split at h
        · simp at h
        · rename_i m rest2 heq
          refine ih _ _ _ h ?_
          intro mdl hm
          simp only [List.mem_append, List.mem_singleton] at hm
          rcases hm with hm | hm
          · exact h0 mdl hm
          · exact hm ▸ read_mod_no_routines _ _ _ _ heq
      · simp at h

/-! ## The claims -/

/-- C1: the claim states that the frame created for a routine's execution
holds, at position `offset + i`, the declared initial value of the variable
assigned slot `i`.  The code (`test_proc`) pushes the map entries' values in
`HashMap` iteration order and ignores the stored slot index, so under a legal
iteration order (`c1Iter`, a permutation of the entries) slot 0 of the frame
holds 2 — the initial value declared for slot 1 — while slot 0's declared
initial value is 1, and a `VariableRef` for slot 0 reads the wrong
variable. -/
theorem c1_frame_ignores_slot_indices :
    List.Perm c1Iter c1Entries ∧
    vmGet c1Entries "a" = some (0, .Num 1) ∧
    buildStack c1Iter = { offset := 0, vars := [.Num 2, .Num 1] } ∧
    Node.eval (.Var 0) (buildStack c1Iter) = .ok (.Num 2, buildStack c1Iter) ∧
    Variable.Num 2 ≠ Variable.Num 1 :=
  ⟨List.Perm.swap _ _ _, rfl, rfl, rfl, by decide⟩

/-- C2 (counterexample): the driver program declares one `PROC`, parses
successfully, yet the resulting module's routine collection is empty — the
claim that each Module owns the Routines declared inside it fails. -/
theorem c2_counterexample :
    parse_tokens 64 mainTokens =
      .ok { modules := [{ name := "Testmodule", routines := [], vars := [] }], vars := [] } ∧
    TokenType.Proc ∈ mainTokens :=
  ⟨rfl, by decide⟩

/-- C2 (amended): `parse_tokens` returns a Program owning its Modules in
declaration order, but every Module's routine collection is empty: each
parsed routine is executed by `test_proc` and discarded, never stored. -/
theorem c2_modules_own_no_routines (fuel : Nat) (ts : List TokenType) (p : Program)
    (h : parse_tokens fuel ts = .ok p) :
    ∀ mdl, mdl ∈ p.modules → mdl.routines = [] := by
  refine parseTokensLoop_no_routines fuel ts Program.new p h ?_
  intro mdl hm
  simp [Program.new] at hm

/-- C2 (witness for the amended claim at the driver program). -/
theorem c2_witness : (Module.new "Testmodule").routines = [] :=
  c2_modules_own_no_routines 64 mainTokens
    { modules := [Module.new "Testmodule"], vars := [] } rfl (Module.new "Testmodule")
    (List.Mem.head _)

/-- C3 (counterexample): a numeric literal that reaches the end of the input
makes the tokenizer abort with a panic — an abrupt termination, not an error
value returned to the caller. -/
theorem c3_counterexample :
    lexParse "5" = .error (.panic "Expected terminator at 5") := rfl

/-- C3 (amended): parser errors are returned to the caller as `Err` values,
but tokenizer failures (unterminated string, numeric literal or identifier
reaching end of input, undefined symbol) and evaluator failures
(type-mismatched operands, out-of-bounds slot reads, assignment to a
non-variable) abort the process with a panic. -/
theorem c3_error_channels :
    lexParse "\"ab" = .error (.panic "Expected \" at \"ab") ∧
    lexParse "abc" = .error (.panic "Expected terminator at abc") ∧
    lexParse "@" = .error (.panic "Undefined symbol @") ∧
    parse_tokens 8 [.Semicolon] = .error (.err "Invalid token for program: Semicolon") ∧
    Variable.sub (.Bool true) (.Num 1) = .error (.panic "Unknown combo") ∧
    Node.eval (.Var 5) { offset := 0, vars := [] } = .error (.panic "") ∧
    Node.eval (.Assign (.Value .Void) (.Value (.Num 1))) { offset := 0, vars := [] } =
      .error (.panic "Can only assign to variable") :=
  ⟨rfl, rfl, rfl, rfl, rfl, rfl, rfl⟩

/-- C4: `2 + 2 * 3 * 4 + 1` parses with the multiplicative run as a
left-deep chain `(2*3)*4` bound into the right operand of the first
addition, and evaluates to 27. -/
theorem c4_multiplication_precedence :
    parse_sub [] (.Value (.Num 2)) c4Tokens = .ok (c4Tree, []) ∧
    Node.eval c4Tree { offset := 0, vars := [] } =
      .ok (.Num 27, { offset := 0, vars := [] }) :=
  ⟨rfl, by simp only [c4Tree, Node.eval, Variable.add, Variable.mul]; norm_num⟩

/-- C5: a chain of two additive operators associates right-to-left: for any
valid operand tokens, `lhs - t1 + t2 ;` parses as `lhs - (t1 + t2)`, and the
instance `a - b + c` with `a=10, b=3, c=2` parses as `a - (b + c)` and
evaluates to 5 (not the left-associative 9). -/
theorem c5_additive_chain_right_associates :
    (∀ (vars : VarMap) (lhs : Node) (t1 t2 : TokenType) (n1 n2 : Node)
        (ts : List TokenType),
        mkOperand vars t1 = .ok n1 → mkOperand vars t2 = .ok n2 →
        parse_sub vars lhs (.Minus :: t1 :: .Add :: t2 :: .Semicolon :: ts) =
          .ok (.OpSub lhs (.OpAdd n1 n2), ts)) ∧
    parse_sub c5Map (.Var 0) [.Minus, .Id "b", .Add, .Id "c", .Semicolon] =
      .ok (c5Tree, []) ∧
    Node.eval c5Tree c5Stack = .ok (.Num 5, c5Stack) := by
  refine ⟨?_, rfl, ?_⟩
  · intro vars lhs t1 t2 n1 n2 ts h1 h2
    simp only [parse_sub, h1, h2]
  · simp only [c5Tree, c5Stack, Node.eval, Variable.add, Variable.sub]
    norm_num

/-- C5 (witness): the general right-association lemma applied to
`a - b + c ;` over the map `a=10, b=3, c=2`. -/
theorem c5_witness :
    parse_sub c5Map (.Var 0) [.Minus, .Id "b", .Add, .Id "c", .Semicolon, .EndProc] =
      .ok (.OpSub (.Var 0) (.OpAdd (.Var 1) (.Var 2)), [.EndProc]) :=
  c5_additive_chain_right_associates.1 c5Map (.Var 0) (.Id "b") (.Id "c")
    (.Var 1) (.Var 2) [.EndProc] rfl rfl

/-- C6: the claim states the tokenizer emits the exact characters between
the quotes and resumes after the closing quote.  The code drops the last
character of the literal (`"ab"` scans as content `a`) and resumes *at* the
closing quote, which then starts an unterminated-string scan and panics: the
first conjunct exhibits the truncated token and the resume position, the
second the resulting abort on the full input. -/
theorem c6_string_scan_truncates :
    lexGo 2 ("\"ab\"".toList) [] = lexGo 1 ['\"'] [.StringValue "a"] ∧
    lexParse "\"ab\"" = .error (.panic "Expected \" at \"") :=
  ⟨rfl, rfl⟩

/-- C7 (counterexample): a routine body whose only statement is the
diagnostic write `TPWRITE x ;` with `x` undeclared parses *successfully*,
emitting no node and no error — the reference is silently skipped,
contradicting the claim that it makes the parse fail. -/
theorem c7_counterexample :
    readBodyLoop 3 [.TpWrite, .Id "x", .Semicolon, .EndProc] 0 [] [] =
      .ok (0, [], [], []) := rfl

/-- C7 (amended): an undeclared identifier inside an expression fails with
`Unknown id`; an undeclared identifier at statement head is skipped and the
parse then fails on the stray `:=` token; but the operand of the
diagnostic-write keyword with no prior declaration is silently skipped — no
node is emitted and no error is raised. -/
theorem c7_undeclared_identifier :
    (∀ (m : VarMap) (name : String) (lhs : Node) (ts : List TokenType),
        vmGet m name = none →
        parse_sub m lhs (.Add :: .Id name :: ts) = .error (.err "Unknown id")) ∧
    (∀ (m : VarMap) (name : String) (ts : List TokenType) (i n : Nat) (ns : List Node),
        vmGet m name = none →
        readBodyLoop (n + 2) (.Id name :: .Assign :: ts) i m ns =
          .error (.err "Invalid token for routine: Assign")) ∧
    (∀ (m : VarMap) (name : String) (ts : List TokenType) (i n : Nat) (ns : List Node),
        vmGet m name = none →
        readBodyLoop (n + 1) (.TpWrite :: .Id name :: .Semicolon :: ts) i m ns =
          readBodyLoop n ts i m ns) := by
  refine ⟨?_, ?_, ?_⟩
  · intro m name lhs ts h
    simp [parse_sub, mkOperand, h]
  · intro m name ts i n ns h
    simp [readBodyLoop, h, TokenType.debug]
  · intro m name ts i n ns h
    simp [readBodyLoop, tpWriteNodes, h]

/-- C7 (witness): the three behaviours at concrete inputs with an empty
variable map. -/
theorem c7_witness :
    parse_sub [] (.Value .Void) [.Add, .Id "x", .Semicolon] =
      .error (.err "Unknown id") ∧
    readBodyLoop 2 [.Id "x", .Assign] 0 [] [] =
      .error (.err "Invalid token for routine: Assign") ∧
    readBodyLoop 1 [.TpWrite, .Id "x", .Semicolon] 0 [] [] =
      readBodyLoop 0 [] 0 [] [] :=
  ⟨c7_undeclared_identifier.1 [] "x" (.Value .Void) [.Semicolon] rfl,
   c7_undeclared_identifier.2.1 [] "x" [] 0 0 [] rfl,
   c7_undeclared_identifier.2.2 [] "x" [] 0 0 [] rfl⟩

/-- C8: whenever the argument loop (started at slot 0 with an empty map) and
then the body loop accept a procedure, there is a parameter run and a local
run such that the final slot counter equals their total count and the final
variable map is exactly the sequential insertion of the parameters followed
by the locals, numbered 0, 1, 2, … in declaration order. -/
theorem c8_slot_assignment (f1 f2 : Nat) (ts ts1 rest : List TokenType)
    (i1 i2 : Nat) (m1 m2 : VarMap) (ns : List Node)
    (hargs : readArgs f1 ts 0 [] = .ok (i1, m1, ts1))
    (hbody : readBodyLoop f2 ts1 i1 m1 [] = .ok (i2, m2, ns, rest)) :
    ∃ params locals : List (String × Variable),
      i2 = params.length + locals.length ∧
      m2 = insertSeq [] 0 (params ++ locals) := by
  obtain ⟨ps, hi1, hm1⟩ := readArgs_insertSeq f1 ts 0 [] i1 m1 ts1 hargs
  obtain ⟨ls, hi2, hm2⟩ := readBodyLoop_insertSeq f2 ts1 i1 m1 [] i2 m2 ns rest hbody
  refine ⟨ps, ls, by omega, ?_⟩
  rw [insertSeq_append, hm2, hm1, hi1]

/-- C8 (witness): the driver routine `rTest() VAR num nTest1:=0; …` allocates
exactly one slot, numbered 0. -/
theorem c8_witness :
    ∃ params locals : List (String × Variable),
      1 = params.length + locals.length ∧
      ([("nTest1", 0, Variable.Num 0)] : VarMap) = insertSeq [] 0 (params ++ locals) :=
  c8_slot_assignment 8 32 (mainTokens.drop 5) (mainTokens.drop 6) [.EndMod] 0 1 []
    [("nTest1", 0, .Num 0)] [.Assign (.Var 0) c4Tree, .Print 0] rfl rfl

/-- C9: addition of two Bool values is their logical OR, and each arithmetic
operator (including addition) is only defined — returns a value rather than
panicking — when both operands carry the same tag. -/
theorem c9_same_tag_operators :
    (∀ b1 b2 : Bool, Variable.add (.Bool b1) (.Bool b2) = .ok (.Bool (b1 || b2))) ∧
    (∀ v w r : Variable, Variable.add v w = .ok r → v.tag = w.tag) ∧
    (∀ v w r : Variable, Variable.sub v w = .ok r → v.tag = w.tag) ∧
    (∀ v w r : Variable, Variable.mul v w = .ok r → v.tag = w.tag) ∧
    (∀ v w r : Variable, Variable.div v w = .ok r → v.tag = w.tag) := by
  refine ⟨fun b1 b2 => rfl, ?_, ?_, ?_, ?_⟩ <;>
    (intro v w r h
     cases v <;> cases w <;>
       simp_all [Variable.add, Variable.sub, Variable.mul, Variable.div, Variable.tag])

/-- C9 (witness): Bool OR overload at `true + false`, and a defined
same-tag application. -/
theorem c9_witness :
    Variable.add (.Bool true) (.Bool false) = .ok (.Bool true) ∧
    (Variable.Num 1).tag = (Variable.Num 2).tag :=
  ⟨c9_same_tag_operators.1 true false,
   c9_same_tag_operators.2.1 (.Num 1) (.Num 2) (.Num 3)
     (by simp only [Variable.add]; norm_num)⟩

/-- C10 (counterexample): on the input `formatted` itself the tokenizer does
match the keyword prefix `FOR`, but the remainder `matted` reaches the end
of the input inside the identifier scanner and the process panics — no
token sequence is returned, contradicting the claimed emission of FOR
followed by an identifier token. -/
theorem c10_counterexample :
    lexParse "formatted" = .error (.panic "Expected terminator at matted") := rfl

/-- C10 (amended): the tokenizer performs no word-boundary check — a keyword
spelling that prefixes an identifier is emitted as the keyword token, and
the remainder is scanned separately (an identifier token when a non-identifier
character follows, as in `formatted;`; a panic when it reaches end of
input, as in bare `formatted`). -/
theorem c10_keyword_prefix_match :
    lexParse "formatted;" = .ok [.For, .Id "matted", .Semicolon] := rfl

end RapidRust
